import Mathlib

/-!
# Verification of `src/wgpu-hal/src/vulkan/instance.rs`

A shallow embedding of the Vulkan instance / surface / swapchain layer of
wgpu-hal: capability negotiation (`required_extensions`), instance adoption
(`from_raw`), platform-polymorphic surface creation (`create_surface`), the
swapchain state machine (`configure`, `acquire_texture`) and the label
rendering of the debug-utils messenger callback.

Driver calls (the ash entry points) are modelled as explicit inputs: the
enumeration result, the `acquire_next_image` result, the fence wait/reset
results and the swapchain-creation result are parameters, so every code path
of the Rust source is an explicit branch of a total Lean function.  Rust
panics (`unwrap`, out-of-bounds indexing, `panic!`) are explicit outcome
constructors rather than `Option` failures, so "returns an error" and
"panics" stay distinguishable.
-/

namespace WgpuHal

/-- `vk::API_VERSION_1_0 = make_api_version(0, 1, 0, 0)`, i.e. `1 <<< 22`:
the oldest driver API version the backend supports. -/
def VK_API_VERSION_1_0 : Nat := 4194304

/-- `khr::Surface::name()`. -/
def khrSurfaceName : String := "VK_KHR_surface"

/-- `khr::XlibSurface::name()`. -/
def khrXlibSurfaceName : String := "VK_KHR_xlib_surface"

/-- `khr::XcbSurface::name()`. -/
def khrXcbSurfaceName : String := "VK_KHR_xcb_surface"

/-- `khr::WaylandSurface::name()`. -/
def khrWaylandSurfaceName : String := "VK_KHR_wayland_surface"

/-- `khr::AndroidSurface::name()`. -/
def khrAndroidSurfaceName : String := "VK_KHR_android_surface"

/-- `khr::Win32Surface::name()`. -/
def khrWin32SurfaceName : String := "VK_KHR_win32_surface"

/-- `ext::MetalSurface::name()`. -/
def extMetalSurfaceName : String := "VK_EXT_metal_surface"

/-- `ext::DebugUtils::name()`. -/
def extDebugUtilsName : String := "VK_EXT_debug_utils"

/-- `vk::KhrGetPhysicalDeviceProperties2Fn::name()`. -/
def khrGetPhysicalDeviceProperties2Name : String :=
  "VK_KHR_get_physical_device_properties2"

/-- `vk::KhrStorageBufferStorageClassFn::name()`. -/
def khrStorageBufferStorageClassName : String :=
  "VK_KHR_storage_buffer_storage_class"

/-- Modelled from the spec: `super::MILLIS_TO_NANOS` lives in the module root
of the vulkan backend, outside src/; the spec says step 1 of acquisition
converts the caller's millisecond timeout to the driver's nanosecond unit. -/
def MILLIS_TO_NANOS : Nat := 1000000

/-- Modelled from the spec: `crate::auxil::db::intel::VENDOR` lives outside
src/; the spec names the known-buggy vendor of the acquire sanity check as
Intel, whose PCI vendor identifier is 0x8086. -/
def intelVendorId : Nat := 0x8086

/-- `crate::InstanceFlags`: the feature-flag bundle (`DEBUG`, `VALIDATION`). -/
structure InstanceFlags where
  debug : Bool
  validation : Bool
deriving DecidableEq

/-- `crate::InstanceError`: the unit error struct of instance-level failures. -/
inductive InstanceError
  | mk
deriving DecidableEq

/-- The compile target the source selects with `cfg!`: which platform-specific
WSI extensions are requested and which `create_surface` match arms exist.
`linuxLike` is `all(unix, not(android), not(macos))`. -/
inductive Platform
  | linuxLike
  | android
  | windows
  | macos
deriving DecidableEq

/-- A `vk::Result` code as consumed by the error branches of the source:
the four codes the source matches by name, and `other` for every remaining
driver result code (carrying its raw value). -/
inductive VkResultCode
  | timeout
  | notReady
  | errorOutOfDateKhr
  | errorSurfaceLostKhr
  | other (code : Int)
deriving DecidableEq

/-- Modelled from the spec: `crate::DeviceError` and its `From<vk::Result>`
impl live outside src/; the spec says any other driver error is wrapped into
a generic device error and propagated unchanged, so the wrapper keeps the
raw result code. -/
structure DeviceError where
  code : VkResultCode
deriving DecidableEq

/-- `DeviceError::from(vk::Result)`: the generic device-error wrapping. -/
def DeviceError.fromVk (code : VkResultCode) : DeviceError := ⟨code⟩

/-- `crate::SurfaceError` (`Device` via the `From<DeviceError>` impl used by
`.into()` at the call sites). -/
inductive SurfaceError
  | Lost
  | Outdated
  | Device (e : DeviceError)
  | Other (s : String)
deriving DecidableEq

/-- The candidate wish-list `required_extensions` builds before filtering, in
push order: `khr::Surface`, the platform-specific WSI extensions, the
debug-utils extension when the DEBUG flag is set, the
get-physical-device-properties2 extension, and the
storage-buffer-storage-class extension when the driver API version is
exactly Vulkan 1.0. -/
def candidateExtensions (platform : Platform) (driver_api_version : Nat)
    (flags : InstanceFlags) : List String :=
  [khrSurfaceName]
    ++ (match platform with
        | Platform.linuxLike =>
            [khrXlibSurfaceName, khrXcbSurfaceName, khrWaylandSurfaceName]
        | Platform.android => [khrAndroidSurfaceName]
        | Platform.windows => [khrWin32SurfaceName]
        | Platform.macos => [extMetalSurfaceName])
    ++ (if flags.debug then [extDebugUtilsName] else [])
    ++ [khrGetPhysicalDeviceProperties2Name]
    ++ (if driver_api_version = VK_API_VERSION_1_0 then
          [khrStorageBufferStorageClassName]
        else [])

/-- `Instance::required_extensions`.  `enumerated` is the result of
`entry.enumerate_instance_extension_properties()`: an error there is mapped
to `InstanceError`; otherwise the candidate list is retained down to the
entries the driver reports (a missing entry is dropped with a logged notice,
never an error). -/
def required_extensions (enumerated : Except VkResultCode (List String))
    (driver_api_version : Nat) (flags : InstanceFlags) (platform : Platform) :
    Except InstanceError (List String) :=
  match enumerated with
  | Except.error _ => Except.error InstanceError.mk
  | Except.ok instance_extensions =>
      Except.ok ((candidateExtensions platform driver_api_version flags).filter
        (fun e => decide (e ∈ instance_extensions)))

/-- The `InstanceShared` state `from_raw` builds: the flags, whether a
debug-utils messenger was registered (`debug_utils` is `Some`), and whether
the extended physical-device-properties function table was loaded. -/
structure InstanceShared where
  flags : InstanceFlags
  debug_utils : Bool
  get_physical_device_properties : Bool
deriving DecidableEq

/-- `super::Instance`: the shared state plus the accepted extension list. -/
structure Instance where
  shared : InstanceShared
  extensions : List String
deriving DecidableEq

/-- `Instance::from_raw` (the raw handles and the drop guard are opaque and
elided): fail with `InstanceError` when the driver API version is exactly
Vulkan 1.0 and the supplied extension list lacks the
storage-buffer-storage-class extension; otherwise register the debug-utils
messenger iff its extension is present, load the properties2 function table
iff its extension is present, and build the instance. -/
def from_raw (driver_api_version : Nat) (extensions : List String)
    (flags : InstanceFlags) : Except InstanceError Instance :=
  if driver_api_version = VK_API_VERSION_1_0
      ∧ khrStorageBufferStorageClassName ∉ extensions then
    Except.error InstanceError.mk
  else
    Except.ok
      { shared :=
          { flags := flags
          , debug_utils := decide (extDebugUtilsName ∈ extensions)
          , get_physical_device_properties :=
              decide (khrGetPhysicalDeviceProperties2Name ∈ extensions) }
      , extensions := extensions }

/-- The platform window token's variant (`raw_window_handle::RawWindowHandle`),
payloads elided: the creation calls treat them opaquely. -/
inductive RawWindowHandle
  | wayland
  | xlib
  | xcb
  | android
  | windows
  | macos
deriving DecidableEq

/-- What a surface-creation path does, distinguishing the Rust control flow:
a driver-level creation call was reached (`surfaceCreated`),
`Err(InstanceError)` was returned without any driver call (`instanceError`),
or a helper hit its `panic!` on a missing extension (`panicMissingExtension`). -/
inductive SurfaceOutcome
  | surfaceCreated
  | instanceError
  | panicMissingExtension
deriving DecidableEq

/-- `Instance::create_surface_from_wayland`: panics when the wayland-surface
extension is absent, else performs the driver creation call. -/
def create_surface_from_wayland (extensions : List String) : SurfaceOutcome :=
  if khrWaylandSurfaceName ∈ extensions then SurfaceOutcome.surfaceCreated
  else SurfaceOutcome.panicMissingExtension

/-- `Instance::create_surface_from_xlib`. -/
def create_surface_from_xlib (extensions : List String) : SurfaceOutcome :=
  if khrXlibSurfaceName ∈ extensions then SurfaceOutcome.surfaceCreated
  else SurfaceOutcome.panicMissingExtension

/-- `Instance::create_surface_from_xcb`. -/
def create_surface_from_xcb (extensions : List String) : SurfaceOutcome :=
  if khrXcbSurfaceName ∈ extensions then SurfaceOutcome.surfaceCreated
  else SurfaceOutcome.panicMissingExtension

/-- `Instance::create_surface_android`: performs the driver creation call with
no extension check at all. -/
def create_surface_android (_extensions : List String) : SurfaceOutcome :=
  SurfaceOutcome.surfaceCreated

/-- `Instance::create_surface_from_hwnd`: panics when the win32-surface
extension is absent, else performs the driver creation call. -/
def create_surface_from_hwnd (extensions : List String) : SurfaceOutcome :=
  if khrWin32SurfaceName ∈ extensions then SurfaceOutcome.surfaceCreated
  else SurfaceOutcome.panicMissingExtension

/-- `Instance::create_surface_from_ns_view`: sets up the metal layer and
performs the driver creation call; no extension check inside the helper. -/
def create_surface_from_ns_view (_extensions : List String) : SurfaceOutcome :=
  SurfaceOutcome.surfaceCreated

/-- `Instance::create_surface`: the match on the raw window handle.  Only the
arms compiled for `platform` exist; the Wayland, Xlib, Xcb and MacOS arms
carry a match guard testing the accepted extension set (a failed guard falls
through to the catch-all `Err(InstanceError)` arm); the Android and Windows
arms have no guard and call their helper directly. -/
def create_surface (platform : Platform) (extensions : List String)
    (handle : RawWindowHandle) : SurfaceOutcome :=
  match platform, handle with
  | Platform.linuxLike, RawWindowHandle.wayland =>
      if khrWaylandSurfaceName ∈ extensions then
        create_surface_from_wayland extensions
      else SurfaceOutcome.instanceError
  | Platform.linuxLike, RawWindowHandle.xlib =>
      if khrXlibSurfaceName ∈ extensions then
        create_surface_from_xlib extensions
      else SurfaceOutcome.instanceError
  | Platform.linuxLike, RawWindowHandle.xcb =>
      if khrXcbSurfaceName ∈ extensions then
        create_surface_from_xcb extensions
      else SurfaceOutcome.instanceError
  | Platform.android, RawWindowHandle.android =>
      create_surface_android extensions
  | Platform.windows, RawWindowHandle.windows =>
      create_surface_from_hwnd extensions
  | Platform.macos, RawWindowHandle.macos =>
      if extMetalSurfaceName ∈ extensions then
        create_surface_from_ns_view extensions
      else SurfaceOutcome.instanceError
  | _, _ => SurfaceOutcome.instanceError

/-- `super::Swapchain`, the fields `acquire_texture` reads: the owning
device's vendor identifier, the presentation image handles, and the
configured usage and format metadata.  The raw swapchain handle, the fence
and the functor are driver handles and are elided. -/
structure Swapchain where
  vendor_id : Nat
  images : List Nat
  usage : Nat
  format : Nat
deriving DecidableEq

/-- `super::Surface`, the field the swapchain state machine drives: the
optional active swapchain (`None` is the Unconfigured state). -/
structure Surface where
  swapchain : Option Swapchain
deriving DecidableEq

/-- `super::Texture` as built by `acquire_texture`: the raw image handle plus
the configured usage and format metadata (drop guard, memory block, aspects
and creation flags are constants in the source and elided). -/
structure Texture where
  raw : Nat
  usage : Nat
  format : Nat
deriving DecidableEq

/-- `super::SurfaceTexture`: the acquired index and the wrapped texture. -/
structure SurfaceTexture where
  index : Nat
  texture : Texture
deriving DecidableEq

/-- `crate::AcquiredSurfaceTexture`: the texture plus the suboptimal hint. -/
structure AcquiredSurfaceTexture where
  texture : SurfaceTexture
  suboptimal : Bool
deriving DecidableEq

/-- The observable outcome of `acquire_texture`, keeping Rust panics distinct
from returned values: `panicUnwrapNone` is the `self.swapchain.as_mut
().unwrap()` panic on an unconfigured surface, `panicIndexOutOfBounds` the
`sc.images[index as usize]` indexing panic, and `result` a returned
`Result<Option<AcquiredSurfaceTexture>, SurfaceError>`. -/
inductive AcquireOutcome
  | panicUnwrapNone
  | panicIndexOutOfBounds
  | result (r : Except SurfaceError (Option AcquiredSurfaceTexture))

/-- Whether an outcome is the unwrap-on-`None` panic. -/
def AcquireOutcome.isPanicUnwrapNone : AcquireOutcome → Bool
  | AcquireOutcome.panicUnwrapNone => true
  | _ => false

/-- `Surface::configure`.  `create_swapchain` stands for
`device.create_swapchain(self, config, old)`, receiving the drained old
swapchain (the `take()` has already set the surface's field to `None`); on
its error the `?` operator returns the error with the surface left
unconfigured, on success the new swapchain is installed. -/
def configure (surface : Surface)
    (create_swapchain : Option Swapchain → Except SurfaceError Swapchain) :
    Except SurfaceError Unit × Surface :=
  let old := surface.swapchain
  match create_swapchain old with
  | Except.error e => (Except.error e, { swapchain := none })
  | Except.ok sc => (Except.ok (), { swapchain := some sc })

/-- `Surface::acquire_texture`.  `acquireNextImage` stands for the driver's
`acquire_next_image`, applied to the nanosecond timeout the source computes;
`waitRes` and `resetRes` are the results of `wait_for_fences` and
`reset_fences`.  Mirrors the source line by line: unwrap the swapchain,
classify a driver error, apply the Intel index sanity check, wait on and
reset the fence, then wrap the indexed image handle. -/
def acquire_texture (swapchain : Option Swapchain) (timeout_ms : Nat)
    (acquireNextImage : Nat → Except VkResultCode (Nat × Bool))
    (waitRes resetRes : Except VkResultCode Unit) : AcquireOutcome :=
  match swapchain with
  | none => AcquireOutcome.panicUnwrapNone
  | some sc =>
    let timeout_ns := timeout_ms * MILLIS_TO_NANOS
    match acquireNextImage timeout_ns with
    | Except.error e =>
        AcquireOutcome.result
          (match e with
           | VkResultCode.timeout => Except.ok none
           | VkResultCode.notReady => Except.error SurfaceError.Outdated
           | VkResultCode.errorOutOfDateKhr => Except.error SurfaceError.Outdated
           | VkResultCode.errorSurfaceLostKhr => Except.error SurfaceError.Lost
           | other => Except.error (SurfaceError.Device (DeviceError.fromVk other)))
    | Except.ok (index, suboptimal) =>
        if sc.vendor_id = intelVendorId ∧ 0x100 < index then
          AcquireOutcome.result (Except.error SurfaceError.Outdated)
        else
          match waitRes with
          | Except.error e =>
              AcquireOutcome.result
                (Except.error (SurfaceError.Device (DeviceError.fromVk e)))
          | Except.ok _ =>
            match resetRes with
            | Except.error e =>
                AcquireOutcome.result
                  (Except.error (SurfaceError.Device (DeviceError.fromVk e)))
            | Except.ok _ =>
              match sc.images[index]? with
              | none => AcquireOutcome.panicIndexOutOfBounds
              | some raw =>
                  AcquireOutcome.result
                    (Except.ok (some
                      { texture :=
                          { index := index
                          , texture :=
                              { raw := raw
                              , usage := sc.usage
                              , format := sc.format } }
                      , suboptimal := suboptimal }))

/-- Modelled from the spec: the driver's acquire-next-image call is outside
the repository.  The spec says the call may block up to the timeout and that
an elapsed timeout is classified as "no texture available": with a pending
image the driver reports its index and suboptimal hint, with none the
timeout elapses and the driver reports the timeout result code. -/
def driverAcquireNextImage (pendingImage : Option (Nat × Bool))
    (_timeout_ns : Nat) : Except VkResultCode (Nat × Bool) :=
  match pendingImage with
  | some pair => Except.ok pair
  | none => Except.error VkResultCode.timeout

/-- The failure-semantics table of the spec, written from the spec's words
(not from the source), to be compared with the error branch of
`acquire_texture`: timeout is no texture, not-ready and out-of-date are
`Outdated`, surface-lost is `Lost`, and every other driver error is a
generic device-error wrapping. -/
def specAcquireClassification (e : VkResultCode) :
    Except SurfaceError (Option AcquiredSurfaceTexture) :=
  match e with
  | VkResultCode.timeout => Except.ok none
  | VkResultCode.notReady => Except.error SurfaceError.Outdated
  | VkResultCode.errorOutOfDateKhr => Except.error SurfaceError.Outdated
  | VkResultCode.errorSurfaceLostKhr => Except.error SurfaceError.Lost
  | VkResultCode.other c =>
      Except.error (SurfaceError.Device (DeviceError.fromVk (VkResultCode.other c)))

/-- A `vk::DebugUtilsLabelEXT` as the callback reads it: the possibly-null
label name pointer is an `Option`. -/
structure DebugUtilsLabel where
  p_label_name : Option String
deriving DecidableEq

/-- A `vk::DebugUtilsObjectNameInfoEXT` as the callback reads it. -/
structure DebugUtilsObjectNameInfo where
  object_type : Nat
  object_handle : Nat
  p_object_name : Option String
deriving DecidableEq

/-- The queue-labels block of `debug_utils_messenger_callback`: the rendered
name list is a `flat_map` over the optional label names, so a null name
contributes nothing. -/
def queueLabelNames (labels : List DebugUtilsLabel) : List String :=
  labels.filterMap (fun dul_obj => dul_obj.p_label_name)

/-- The command-buffer-labels block of `debug_utils_messenger_callback`: the
same `flat_map` over the optional label names. -/
def cmdBufLabelNames (labels : List DebugUtilsLabel) : List String :=
  labels.filterMap (fun dul_obj => dul_obj.p_label_name)

/-- Lowercase hexadecimal rendering of a handle, as Rust's `0x{:x}` format
writes it after the `0x` the format string supplies. -/
def hexDigits (n : Nat) : String := String.mk (Nat.toDigits 16 n)

/-- One entry of the objects block of `debug_utils_messenger_callback`: the
null object name falls back to the placeholder, and the entry is formatted
as in the source (the object type's debug formatting abstracted to the
numeric value). -/
def objectEntry (obj_info : DebugUtilsObjectNameInfo) : String :=
  "(type: " ++ toString obj_info.object_type ++ ", hndl: 0x"
    ++ hexDigits obj_info.object_handle ++ ", name: "
    ++ obj_info.p_object_name.getD "?" ++ ")"

/-- The objects block of `debug_utils_messenger_callback`: a `map`, so every
object yields one rendered entry. -/
def objectEntries (objs : List DebugUtilsObjectNameInfo) : List String :=
  objs.map objectEntry

/-- The lengths of a `filterMap` over optional fields and of the filter to the
entries where the field is present agree: dropping the absent entries is the
only shrinking. -/
theorem length_filterMap_isSome {α β : Type} (f : α → Option β) (l : List α) :
    (l.filterMap f).length = (l.filter (fun a => (f a).isSome)).length := by
  induction l with
  | nil => rfl
  | cons a l ih =>
      cases h : f a <;>
        simp [List.filterMap_cons, List.filter_cons, h, ih]

/-- Claim C1: inside `acquire_texture`, the classification of a driver error
from the image-acquisition call is total and deterministic and matches the
spec's table: timeout yields `Ok(None)`, not-ready and out-of-date yield
`SurfaceError::Outdated`, surface-lost yields `SurfaceError::Lost`, and every
other driver error yields a generic device error wrapped into
`SurfaceError`. -/
theorem acquire_texture_error_classification (sc : Swapchain) (timeout_ms : Nat)
    (e : VkResultCode) (waitRes resetRes : Except VkResultCode Unit) :
    acquire_texture (some sc) timeout_ms (fun _ => Except.error e)
        waitRes resetRes
      = AcquireOutcome.result (specAcquireClassification e) := by
  cases e <;> rfl

/-- Claim C2: `from_raw` rejects with `InstanceError` exactly when the driver
API version equals Vulkan 1.0 and the supplied extension list lacks the
storage-buffer-storage-class extension; every other combination of version
and extension list passes the check and yields an instance. -/
theorem from_raw_storage_class_check (v : Nat) (exts : List String)
    (flags : InstanceFlags) :
    (from_raw v exts flags = Except.error InstanceError.mk
        ↔ v = VK_API_VERSION_1_0 ∧ khrStorageBufferStorageClassName ∉ exts)
    ∧ (¬(v = VK_API_VERSION_1_0 ∧ khrStorageBufferStorageClassName ∉ exts)
        → ∃ inst, from_raw v exts flags = Except.ok inst) := by
  unfold from_raw
  split
  · rename_i h
    exact ⟨iff_of_true rfl h, fun hc => absurd h hc⟩
  · rename_i h
    exact ⟨iff_of_false (fun hc => Except.noConfusion hc) h, fun _ => ⟨_, rfl⟩⟩

/-- Claim C3, counterexample: with a driver that reports no extensions at all
and a driver API version of exactly Vulkan 1.0, `required_extensions` does
not fail: it returns `Ok` with the mandatory storage-buffer-storage-class
entry silently dropped from the list. -/
theorem required_extensions_not_fatal_cex :
    required_extensions (Except.ok []) VK_API_VERSION_1_0 ⟨false, false⟩
        Platform.linuxLike
      = Except.ok [] := rfl

/-- Claim C3, amended: when the driver's enumerated extension list lacks the
storage-buffer-storage-class extension and the driver API version is exactly
Vulkan 1.0, `required_extensions` itself is not fatal: it returns `Ok` with
the entry dropped; the fatality is enforced downstream, since `from_raw`
(which `init` calls with this very list) then fails with `InstanceError`. -/
theorem required_extensions_missing_storage_defers (avail : List String)
    (flags : InstanceFlags) (p : Platform)
    (h : khrStorageBufferStorageClassName ∉ avail) :
    ∃ exts,
      required_extensions (Except.ok avail) VK_API_VERSION_1_0 flags p
          = Except.ok exts
      ∧ khrStorageBufferStorageClassName ∉ exts
      ∧ from_raw VK_API_VERSION_1_0 exts flags = Except.error InstanceError.mk := by
  have hnot : khrStorageBufferStorageClassName ∉
      (candidateExtensions p VK_API_VERSION_1_0 flags).filter
        (fun e => decide (e ∈ avail)) := by
    intro hmem
    exact h (of_decide_eq_true (List.mem_filter.mp hmem).2)
  refine ⟨_, rfl, hnot, ?_⟩
  unfold from_raw
  rw [if_pos ⟨rfl, hnot⟩]

/-- Witness for the amended claim C3, at the concrete empty driver list. -/
theorem required_extensions_missing_storage_witness :
    ∃ exts,
      required_extensions (Except.ok []) VK_API_VERSION_1_0 ⟨false, false⟩
          Platform.linuxLike
        = Except.ok exts
      ∧ khrStorageBufferStorageClassName ∉ exts
      ∧ from_raw VK_API_VERSION_1_0 exts ⟨false, false⟩
          = Except.error InstanceError.mk :=
  required_extensions_missing_storage_defers [] ⟨false, false⟩ Platform.linuxLike
    (by simp)

/-- Claim C4: no phantom acceptances: every extension identifier in a list
returned by `required_extensions` appears in the driver's enumerated
instance-extension list supplied to the negotiation. -/
theorem required_extensions_no_phantom (avail : List String) (v : Nat)
    (flags : InstanceFlags) (p : Platform) (exts : List String)
    (h : required_extensions (Except.ok avail) v flags p = Except.ok exts) :
    ∀ e ∈ exts, e ∈ avail := by
  unfold required_extensions at h
  injection h with h
  subst h
  intro e he
  exact of_decide_eq_true (List.mem_filter.mp he).2

/-- Witness for claim C4: the surface extension accepted from a singleton
driver list is indeed an element of that list. -/
theorem required_extensions_no_phantom_witness : khrSurfaceName ∈ [khrSurfaceName] :=
  required_extensions_no_phantom [khrSurfaceName] VK_API_VERSION_1_0
    ⟨false, false⟩ Platform.linuxLike [khrSurfaceName] rfl khrSurfaceName
    (by simp)

/-- Claim C5: when the swapchain's device vendor identifier is the
known-buggy Intel one and the driver reports success with an image index
above the sanity bound 0x100, `acquire_texture` returns
`Err(SurfaceError::Outdated)` despite the reported success. -/
theorem acquire_texture_intel_quirk (sc : Swapchain) (timeout_ms index : Nat)
    (sub : Bool) (waitRes resetRes : Except VkResultCode Unit)
    (hv : sc.vendor_id = intelVendorId) (hi : 0x100 < index) :
    acquire_texture (some sc) timeout_ms (fun _ => Except.ok (index, sub))
        waitRes resetRes
      = AcquireOutcome.result (Except.error SurfaceError.Outdated) := by
  unfold acquire_texture
  simp only []
  rw [if_pos ⟨hv, hi⟩]

/-- Witness for claim C5 at a concrete Intel swapchain and index 0x101. -/
theorem acquire_texture_intel_quirk_witness :
    acquire_texture (some ⟨0x8086, [], 0, 0⟩) 1000
        (fun _ => Except.ok (0x101, false)) (Except.ok ()) (Except.ok ())
      = AcquireOutcome.result (Except.error SurfaceError.Outdated) :=
  acquire_texture_intel_quirk ⟨0x8086, [], 0, 0⟩ 1000 0x101 false
    (Except.ok ()) (Except.ok ()) rfl (by decide)

/-- Claim C6, counterexample: with an empty accepted extension set, the
Android variant of `create_surface` reaches the driver-level creation call
with no extension check at all, and the Windows variant panics inside
`create_surface_from_hwnd` instead of returning `Err(InstanceError)`. -/
theorem create_surface_unguarded_cex :
    create_surface Platform.android [] RawWindowHandle.android
        = SurfaceOutcome.surfaceCreated
    ∧ create_surface Platform.windows [] RawWindowHandle.windows
        = SurfaceOutcome.panicMissingExtension := ⟨rfl, rfl⟩

/-- Claim C6, amended: the Wayland, Xlib, Xcb and macOS variants of
`create_surface` return `Err(InstanceError)` without attempting the driver
creation call when their matching platform surface extension is not in the
accepted set; the Windows variant instead panics inside its helper, and the
Android variant performs no extension check and always proceeds to the
driver-level creation call. -/
theorem create_surface_extension_guards (exts : List String) :
    (khrWaylandSurfaceName ∉ exts →
        create_surface Platform.linuxLike exts RawWindowHandle.wayland
          = SurfaceOutcome.instanceError)
    ∧ (khrXlibSurfaceName ∉ exts →
        create_surface Platform.linuxLike exts RawWindowHandle.xlib
          = SurfaceOutcome.instanceError)
    ∧ (khrXcbSurfaceName ∉ exts →
        create_surface Platform.linuxLike exts RawWindowHandle.xcb
          = SurfaceOutcome.instanceError)
    ∧ (extMetalSurfaceName ∉ exts →
        create_surface Platform.macos exts RawWindowHandle.macos
          = SurfaceOutcome.instanceError)
    ∧ (khrWin32SurfaceName ∉ exts →
        create_surface Platform.windows exts RawWindowHandle.windows
          = SurfaceOutcome.panicMissingExtension)
    ∧ create_surface Platform.android exts RawWindowHandle.android
        = SurfaceOutcome.surfaceCreated := by
  refine ⟨?_, ?_, ?_, ?_, ?_, rfl⟩
  · intro h; simp [create_surface, h]
  · intro h; simp [create_surface, h]
  · intro h; simp [create_surface, h]
  · intro h; simp [create_surface, h]
  · intro h; simp [create_surface, create_surface_from_hwnd, h]

/-- Claim C7: when the swapchain-creation step fails, `configure` surfaces
the error to the caller and leaves the surface in the Unconfigured state
(its swapchain field is `None`). -/
theorem configure_failure_leaves_unconfigured (surface : Surface)
    (create_swapchain : Option Swapchain → Except SurfaceError Swapchain)
    (e : SurfaceError)
    (h : create_swapchain surface.swapchain = Except.error e) :
    configure surface create_swapchain
      = (Except.error e, { swapchain := none }) := by
  simp [configure, h]

/-- Witness for claim C7 at a concrete configured surface whose
swapchain-creation step reports `Outdated`. -/
theorem configure_failure_witness :
    configure ⟨some ⟨0, [], 0, 0⟩⟩ (fun _ => Except.error SurfaceError.Outdated)
      = (Except.error SurfaceError.Outdated, ⟨none⟩) :=
  configure_failure_leaves_unconfigured ⟨some ⟨0, [], 0, 0⟩⟩
    (fun _ => Except.error SurfaceError.Outdated) SurfaceError.Outdated rfl

/-- Claim C8: on a configured swapchain with no pending image, a call to
`acquire_texture` with a timeout of 0 milliseconds returns `Ok(None)` ("no
texture available, not an error"): the driver's elapsed-timeout result is
classified as `Ok(None)` rather than as an error. -/
theorem acquire_texture_zero_timeout_no_image (sc : Swapchain)
    (waitRes resetRes : Except VkResultCode Unit) :
    acquire_texture (some sc) 0 (driverAcquireNextImage none) waitRes resetRes
      = AcquireOutcome.result (Except.ok none) := rfl

/-- Claim C9, counterexample: a queue label or command-buffer label whose
name pointer is null is omitted from the rendered list entirely (the joined
output is empty), not rendered as the placeholder. -/
theorem queue_label_null_omitted_cex :
    queueLabelNames [⟨none⟩] = []
    ∧ String.intercalate ", " (queueLabelNames [⟨none⟩]) = ""
    ∧ cmdBufLabelNames [⟨none⟩] = [] := ⟨rfl, rfl, rfl⟩

/-- Claim C9, amended: in the diagnostics callback, the queue-label and
command-buffer-label lists omit every label whose name pointer is null (each
rendered name comes from a label whose name is present); only the
object-label list renders every entry, with a null name falling back to the
placeholder. -/
theorem label_rendering (labels : List DebugUtilsLabel)
    (objs : List DebugUtilsObjectNameInfo) :
    ((queueLabelNames labels).length
        = (labels.filter (fun l => l.p_label_name.isSome)).length)
    ∧ (∀ s ∈ queueLabelNames labels, ∃ l ∈ labels, l.p_label_name = some s)
    ∧ ((cmdBufLabelNames labels).length
        = (labels.filter (fun l => l.p_label_name.isSome)).length)
    ∧ (objectEntries objs).length = objs.length
    ∧ (∀ o ∈ objs, o.p_object_name = none →
        objectEntry o
          = "(type: " ++ toString o.object_type ++ ", hndl: 0x"
              ++ hexDigits o.object_handle ++ ", name: " ++ "?" ++ ")") := by
  refine ⟨?_, ?_, ?_, ?_, ?_⟩
  · exact length_filterMap_isSome (fun l => l.p_label_name) labels
  · intro s hs
    exact List.mem_filterMap.mp hs
  · exact length_filterMap_isSome (fun l => l.p_label_name) labels
  · exact List.length_map objs objectEntry
  · intro o _ h
    simp [objectEntry, h]

/-- Claim C10: `acquire_texture` unconditionally unwraps the surface's
swapchain option, so on an unconfigured surface every call panics rather
than returning an error; on a configured surface the unwrap panic is
unreachable, whatever the driver reports. -/
theorem acquire_texture_requires_configured :
    (∀ (timeout_ms : Nat)
        (acquireNextImage : Nat → Except VkResultCode (Nat × Bool))
        (waitRes resetRes : Except VkResultCode Unit),
        acquire_texture none timeout_ms acquireNextImage waitRes resetRes
          = AcquireOutcome.panicUnwrapNone)
    ∧ (∀ (sc : Swapchain) (timeout_ms : Nat)
        (acquireNextImage : Nat → Except VkResultCode (Nat × Bool))
        (waitRes resetRes : Except VkResultCode Unit),
        AcquireOutcome.isPanicUnwrapNone
            (acquire_texture (some sc) timeout_ms acquireNextImage waitRes
              resetRes)
          = false) := by
  constructor
  · intro _ _ _ _
    rfl
  · intro sc t acqFn w r
    unfold acquire_texture
    rcases hacq : acqFn (t * MILLIS_TO_NANOS) with e | p
    · simp only [hacq]
      rfl
    · obtain ⟨index, sub⟩ := p
      simp only [hacq]
      split
      · rfl
      · cases w with
        | error e => rfl
        | ok u =>
          cases r with
          | error e => rfl
          | ok u =>
            cases himg : sc.images[index]? <;> simp only [himg] <;> rfl

end WgpuHal
